import Mathlib

/-!
Verification of the jota-rss-feed extraction pipeline (src/main.py).

The Python source is shallowly embedded: pure helpers become Lean functions,
the HTML tree that BeautifulSoup produces becomes the inductive `HtmlNode`,
JSON values become the inductive `Json`, and the external capabilities the
code calls (the HTTP fetch, `BeautifulSoup(html, "lxml")`, `json.loads`,
`urllib.parse.urljoin`) are collected in an `Env` record so that the
orchestration logic `scrape_tag` can be stated over every behaviour of those
collaborators.  Python `str` methods used by the code are modelled by the
`py*` helpers below over `List Char`.
-/

/-! ### Python string primitives used by main.py -/

/-- Characters that Python's `str.strip()` and the regex class `\s` treat as
whitespace (ASCII fragment; the pages at hand contain no exotic spaces). -/
def isPySpace (c : Char) : Bool :=
  c == ' ' || c == '\t' || c == '\n' || c == '\r' || c == '\x0b' || c == '\x0c'

/-- Models `s.startswith(p)` on character lists. -/
def startsWithChars : List Char → List Char → Bool
  | _, [] => true
  | [], _ :: _ => false
  | c :: cs, d :: ds => c == d && startsWithChars cs ds

/-- Models `s.startswith(p)`. -/
def pyStartsWith (s p : String) : Bool :=
  startsWithChars s.toList p.toList

/-- Substring test on character lists, modelling `re.search` with a literal
pattern such as `/autor/`. -/
def containsChars : List Char → List Char → Bool
  | [], pat => startsWithChars [] pat
  | c :: rest, pat => startsWithChars (c :: rest) pat || containsChars rest pat

/-- Models `pattern in s` / `re.search(literal, s) is not None`. -/
def pyContains (s pat : String) : Bool :=
  containsChars s.toList pat.toList

/-- Models Python `s.strip()`. -/
def pyStrip (s : String) : String :=
  String.mk (((s.toList.dropWhile isPySpace).reverse.dropWhile isPySpace).reverse)

/-- Models Python `s.rstrip(",")`. -/
def pyRstripComma (s : String) : String :=
  String.mk ((s.toList.reverse.dropWhile (· == ',')).reverse)

/-- Models Python `sep.join(parts)`. -/
def pyJoin (sep : String) : List String → String
  | [] => ""
  | s :: rest => rest.foldl (fun acc x => acc ++ sep ++ x) s

/-- Models Python `s.upper()` (ASCII fragment, enough for tag slugs). -/
def pyUpper (s : String) : String :=
  String.map Char.toUpper s

/-- Decimal value of a digit string, modelling `int(s)` on a string of
digits (Python ints are unbounded, as is `Nat`). -/
def parseDigits (cs : List Char) : Nat :=
  cs.foldl (fun acc c => acc * 10 + (c.toNat - '0'.toNat)) 0

/-- Models `int(s.strip())` for the strings the pagination scan feeds it. -/
def pyInt (s : String) : Nat :=
  parseDigits (pyStrip s).toList

/-- Models the Python regex `^\d+$` under `re.search`: the whole string is
one or more digits, where `$` also matches just before one trailing
newline. -/
def matchesDigitsOnly (s : String) : Bool :=
  let core := match s.toList.reverse with
    | '\n' :: rest => rest.reverse
    | _ => s.toList
  core != [] && core.all Char.isDigit

/-- The accented uppercase letters admitted by the category regex in
`parse_article_from_element`. -/
def upperAccented : List Char :=
  ['Á', 'É', 'Í', 'Ó', 'Ú', 'Â', 'Ê', 'Î', 'Ô', 'Û', 'À', 'È', 'Ì', 'Ò', 'Ù', 'Ã', 'Õ']

/-- Character class `[A-ZÁÉÍÓÚÂÊÎÔÛÀÈÌÒÙÃÕ\s]` of the category regex. -/
def isUpperCatChar (c : Char) : Bool :=
  ('A' ≤ c && c ≤ 'Z') || upperAccented.contains c || isPySpace c

/-- Models the regex `^[A-ZÁÉÍÓÚÂÊÎÔÛÀÈÌÒÙÃÕ\s]+$` under `re.search`.
The class contains `\n`, so the end-of-line subtlety of `$` is absorbed by
the class itself. -/
def matchesUpperCat (s : String) : Bool :=
  s.toList != [] && s.toList.all isUpperCatChar

/-- JSON values as produced by `json.loads`.  Numbers are modelled as
integers: the only numeric field the code reads is `totalPages`. -/
inductive Json where
  | null
  | bool (b : Bool)
  | num (n : Int)
  | str (s : String)
  | arr (elems : List Json)
  | obj (fields : List (String × Json))

/-- Dictionary lookup.  `json.loads` keeps the last occurrence of a
duplicated key, hence the reversal; `.get` on a non-dict raises in Python
and is modelled as a miss. -/
def Json.lookup (j : Json) (key : String) : Option Json :=
  match j with
  | .obj fields => (fields.reverse.find? (fun f => f.1 == key)).map (·.2)
  | _ => none

/-- Models `d.get(key, default)`. -/
def Json.getD (j : Json) (key : String) (d : Json) : Json :=
  (j.lookup key).getD d

/-- The string carried by a JSON value.  The posts the site serves carry
strings in `title` / `permalink` / `name`; a non-string value (which would
make Python build an `Article` holding a non-string) is modelled as `""`. -/
def Json.getStr : Json → String
  | .str s => s
  | _ => ""

/-- Python truthiness of a JSON value. -/
def Json.truthy : Json → Bool
  | .null => false
  | .bool b => b
  | .num n => n != 0
  | .str s => s != ""
  | .arr l => !l.isEmpty
  | .obj f => !f.isEmpty

/-- The `Article` dataclass of main.py. -/
structure Article where
  title : String
  url : String
  authors : List String
  category : String
  image_url : Option String
deriving DecidableEq, Repr

/-- Module constant `BASE_URL`. -/
def BASE_URL : String := "https://www.jota.info"

/-- Module constant `DEFAULT_MAX_PAGES`. -/
def DEFAULT_MAX_PAGES : Int := 3

/-- The loop body of `parse_articles_from_next_data` (main.py lines
75-100): one post dictionary to an optional Article; `continue` on an
empty title or permalink becomes `none`. -/
def parse_post (base_url : String) (post : Json) : Option Article :=
  let title := (post.getD "title" (.str "")).getStr
  let permalink := (post.getD "permalink" (.str "")).getStr
  if title = "" ∨ permalink = "" then none
  else
    let url := if pyStartsWith permalink "http" then permalink else base_url ++ permalink
    let authors : List String :=
      match post.lookup "author" with
      | some (.obj fields) =>
        let author_name := ((Json.obj fields).getD "name" (.str "")).getStr
        if author_name ≠ "" then [author_name] else []
      | some (.arr l) =>
        l.filterMap (fun a =>
          let n := (a.getD "name" (.str "")).getStr
          if n ≠ "" then some n else none)
      | _ => []
    let categoryJson := post.getD "category" Json.null
    let category := if categoryJson.truthy
      then (categoryJson.getD "name" (.str "")).getStr else ""
    let imageJson := post.getD "image" Json.null
    let image_url := if imageJson.truthy then
        match imageJson.lookup "url" with
        | some (.str s) => some s
        | _ => none
      else none
    some { title := title, url := url, authors := authors,
           category := category, image_url := image_url }

/-- Embedding of `parse_articles_from_next_data` (main.py lines 70-102),
with the module constant `BASE_URL` abstracted as `base_url`. -/
def parse_articles_from_next_data (base_url : String) (data : Json) : List Article :=
  let page_props := (data.getD "props" (.obj [])).getD "pageProps" (.obj [])
  let posts := match page_props.lookup "posts" with
    | some (.arr l) => l
    | _ => []
  posts.filterMap (parse_post base_url)

/-- Embedding of `get_total_pages_from_next_data` (main.py lines 105-107).
A non-numeric `totalPages` would make the later `min` raise in Python and
is modelled by the default. -/
def get_total_pages_from_next_data (data : Json) : Int :=
  let page_props := (data.getD "props" (.obj [])).getD "pageProps" (.obj [])
  match page_props.lookup "totalPages" with
  | some (.num n) => n
  | _ => 1

/-- The structured payload of the C1 scenario:
`props.pageProps.posts = [ { title := T, permalink := /p } ]`,
`props.pageProps.totalPages = 1`. -/
def c1_payload : Json :=
  .obj [("props", .obj [("pageProps", .obj
    [("posts", .arr [.obj [("title", .str "T"), ("permalink", .str "/p")]]),
     ("totalPages", .num 1)])])]

/-- A node of the parsed HTML tree: an element with a tag name, attributes
and children, or a text node (a NavigableString). -/
inductive HtmlNode where
  | elem (tag : String) (attrs : List (String × String)) (children : List HtmlNode)
  | text (s : String)

/-- Children of a node (a text node has none). -/
def HtmlNode.childNodes : HtmlNode → List HtmlNode
  | .elem _ _ cs => cs
  | .text _ => []

/-- Attributes of a node. -/
def HtmlNode.attrsOf : HtmlNode → List (String × String)
  | .elem _ a _ => a
  | .text _ => []

/-- Models `tag.get(key)` on an attribute list (HTML attributes are
unique). -/
def getAttr (attrs : List (String × String)) (key : String) : Option String :=
  (attrs.find? (fun p => p.1 == key)).map (·.2)

mutual
/-- First element among a list of sibling subtrees (document pre-order)
whose tag and attributes satisfy `p`, modelling `node.find(...)` applied to
the node's children. -/
def findElemInList (p : String → List (String × String) → Bool) :
    List HtmlNode → Option HtmlNode
  | [] => none
  | n :: rest =>
    match findElemInNode p n with
    | some r => some r
    | none => findElemInList p rest

/-- First element in the subtree rooted at `n` (the root included)
satisfying `p`, in document pre-order. -/
def findElemInNode (p : String → List (String × String) → Bool) :
    HtmlNode → Option HtmlNode
  | .text _ => none
  | .elem t a cs =>
    if p t a then some (.elem t a cs) else findElemInList p cs
end

mutual
/-- All elements among a list of sibling subtrees satisfying `p`, in
document pre-order, modelling `node.find_all(...)`. -/
def findAllInList (p : String → List (String × String) → Bool) :
    List HtmlNode → List HtmlNode
  | [] => []
  | n :: rest => findAllInNode p n ++ findAllInList p rest

/-- All elements in the subtree rooted at `n` satisfying `p`. -/
def findAllInNode (p : String → List (String × String) → Bool) :
    HtmlNode → List HtmlNode
  | .text _ => []
  | .elem t a cs => (if p t a then [.elem t a cs] else []) ++ findAllInList p cs
end

mutual
/-- All text nodes below a list of sibling subtrees, in document order. -/
def textsInList : List HtmlNode → List String
  | [] => []
  | n :: rest => textsInNode n ++ textsInList rest

/-- All text nodes in the subtree rooted at `n`, in document order,
modelling what `find_all(string=...)` and `find(string=...)` scan. -/
def textsInNode : HtmlNode → List String
  | .text s => [s]
  | .elem _ _ cs => textsInList cs
end

mutual
/-- The `h2` elements below a list of sibling subtrees, each paired with
its chain of ancestors (nearest first); `anc` is the ancestor chain of the
siblings themselves. -/
def headingsInList : List HtmlNode → List HtmlNode → List (HtmlNode × List HtmlNode)
  | _, [] => []
  | anc, n :: rest => headingsInNode anc n ++ headingsInList anc rest

/-- The `h2` elements in the subtree rooted at `n`, paired with ancestor
chains, modelling `soup.find_all("h2")` together with BeautifulSoup's
parent pointers. -/
def headingsInNode : List HtmlNode → HtmlNode → List (HtmlNode × List HtmlNode)
  | _, .text _ => []
  | anc, .elem t a cs =>
    (if t == "h2" then [(HtmlNode.elem t a cs, anc)] else []) ++
      headingsInList (HtmlNode.elem t a cs :: anc) cs
end

/-- Models `node.get_text(strip=True)`: the stripped text descendants,
with empties dropped, concatenated. -/
def getTextStrip (n : HtmlNode) : String :=
  String.join (((textsInNode n).map pyStrip).filter (fun s => s ≠ ""))

/-- Models `heading.find_parent()` on an ancestor chain: the nearest
ancestor together with the remaining chain. -/
def find_parent : List HtmlNode → Option (HtmlNode × List HtmlNode)
  | [] => none
  | p :: rest => some (p, rest)

/-- The loop `for _ in range(5): if parent is None: break;
parent = parent.find_parent()`. -/
def climbLoop : Nat → Option (HtmlNode × List HtmlNode) → Option (HtmlNode × List HtmlNode)
  | 0, st => st
  | _ + 1, none => none
  | n + 1, some (_, rest) => climbLoop n (find_parent rest)

/-- The containing block `parent` at main.py lines 120-124: start at
`heading.find_parent()` and climb five more levels, `none` when the chain
runs out. -/
def ancestor_block (ancestors : List HtmlNode) : Option HtmlNode :=
  (climbLoop 5 (find_parent ancestors)).map (·.1)

/-- Embedding of `parse_articles_from_html`, `parse_article_from_element`
and `get_total_pages_from_html` need the external `urljoin`; that and the
other collaborators of main.py live here. `fetch` returns `none` where
`fetch_page` returns `None` (HTTP status or transport failure). -/
structure Env where
  fetch : String → Option String
  parseHtml : String → HtmlNode
  jsonLoads : String → Option Json
  urljoin : String → String → String

/-- The resolved link target of main.py lines 116-118:
`url = link.get("href", ""); if not url.startswith("http"):
url = urljoin(base_url, url)`. -/
def resolved_url (env : Env) (base_url : String) (link : HtmlNode) : String :=
  let url := (getAttr link.attrsOf "href").getD ""
  if pyStartsWith url "http" then url else env.urljoin base_url url

/-- Embedding of `parse_article_from_element` (main.py lines 110-145).
`ancestors` is the heading's ancestor chain, nearest first, ending at the
document node, as BeautifulSoup's parent pointers provide it. -/
def parse_article_from_element (env : Env) (heading : HtmlNode)
    (ancestors : List HtmlNode) (base_url : String) : Option Article :=
  match findElemInList (fun t _ => t == "a") heading.childNodes with
  | none => none
  | some link =>
    let title := getTextStrip link
    let url := resolved_url env base_url link
    let parent := ancestor_block ancestors
    let authors := match parent with
      | some par =>
        (findAllInList (fun t a => t == "a" &&
            (match getAttr a "href" with
             | some h => pyContains h "/autor/"
             | none => false)) par.childNodes).map
          (fun a => pyRstripComma (getTextStrip a))
      | none => []
    let image_url := match parent with
      | some par =>
        match findElemInList (fun t _ => t == "img") par.childNodes with
        | some img => getAttr img.attrsOf "src"
        | none => none
      | none => none
    let category := match parent with
      | some par =>
        match (textsInList par.childNodes).find? matchesUpperCat with
        | some category_elem =>
          if (pyStrip category_elem).length > 2 then pyStrip category_elem else ""
        | none => ""
      | none => ""
    if title = "" ∨ url = "" then none
    else some { title := title, url := url, authors := authors,
                category := category, image_url := image_url }

/-- Embedding of `parse_articles_from_html` (main.py lines 148-159) on an
already parsed tree: every `h2` in document order through
`parse_article_from_element`, keeping the successes. -/
def parse_articles_from_soup (env : Env) (soup : HtmlNode) (base_url : String) :
    List Article :=
  (headingsInList [soup] soup.childNodes).filterMap
    (fun h => parse_article_from_element env h.1 h.2 base_url)

/-- Embedding of `parse_articles_from_html` (main.py lines 148-159). -/
def parse_articles_from_html (env : Env) (html base_url : String) : List Article :=
  parse_articles_from_soup env (env.parseHtml html) base_url

/-- Embedding of `get_total_pages_from_html` (main.py lines 162-173) on an
already parsed tree: fold the loop over every text node matching `^\d+$`,
in document order.  The `try`/`except ValueError` never fires on a matched
string and is not represented. -/
def get_total_pages_from_soup (soup : HtmlNode) : Nat :=
  let page_numbers := (textsInNode soup).filter matchesDigitsOnly
  page_numbers.foldl (fun max_page num_text =>
    let num := pyInt num_text
    if num > max_page ∧ num < 100 then num else max_page) 1

/-- Embedding of `get_total_pages_from_html` (main.py lines 162-173). -/
def get_total_pages_from_html (env : Env) (html : String) : Nat :=
  get_total_pages_from_soup (env.parseHtml html)

/-- The dedup loop of main.py lines 227-232 / 302-307: `seen` is the set of
urls already kept (a list, membership via `contains`). -/
def dedupByKey {α : Type} (key : α → String) : List String → List α → List α
  | _, [] => []
  | seen, a :: rest =>
    if seen.contains (key a) then dedupByKey key seen rest
    else a :: dedupByKey key (key a :: seen) rest

/-- The specification-side description of first-occurrence deduplication:
keep the head, drop every later item with the same key, recurse. -/
def keepFirstByKey {α : Type} (key : α → String) : List α → List α
  | [] => []
  | a :: rest =>
    a :: keepFirstByKey key (rest.filter (fun b => !(key b == key a)))
termination_by l => l.length
decreasing_by
  simp only [List.length_cons]
  exact Nat.lt_succ_of_le (List.length_filter_le _ _)

/-- Articles used to instantiate the dedup theorems: two pages sharing the
url `/a`, the page-1 copy first. -/
def article_p1a : Article :=
  { title := "A from page 1", url := "https://www.jota.info/a",
    authors := [], category := "", image_url := none }

/-- A second article with its own url. -/
def article_p1b : Article :=
  { title := "B from page 1", url := "https://www.jota.info/b",
    authors := [], category := "", image_url := none }

/-- The page-2 duplicate of `/a`. -/
def article_p2a : Article :=
  { title := "A from page 2", url := "https://www.jota.info/a",
    authors := ["X"], category := "", image_url := none }

/-- The total-page count exactly as claim C5 words it: the maximum over
all digit-only text nodes that parse as integers strictly less than 100,
and 1 when no such numeral is present. -/
def total_pages_claimed (soup : HtmlNode) : Nat :=
  let nums := ((textsInNode soup).filter matchesDigitsOnly).map pyInt
  match nums.filter (fun n => decide (n < 100)) with
  | [] => 1
  | n :: rest => rest.foldl Nat.max n

/-- A page whose only pagination numeral is the text node `0`. -/
def c5_zero_page : HtmlNode :=
  .elem "[document]" [] [.elem "html" [] [.elem "body" [] [.elem "span" [] [.text "0"]]]]

/-- A concrete environment for instantiating the extractor theorems; only
`urljoin` could matter and the inputs below use absolute links. -/
def demo_env : Env :=
  { fetch := fun _ => none, parseHtml := fun _ => .text "",
    jsonLoads := fun _ => none, urljoin := fun b u => b ++ u }

/-- A heading with an anchor, as `lxml` parses
`<html><body><h2><a href=...>T</a></h2></body></html>`. -/
def c7_heading : HtmlNode :=
  .elem "h2" [] [.elem "a" [("href", "https://www.jota.info/x")] [.text "T"]]

/-- The enclosing `body` of `c7_heading`. -/
def c7_body : HtmlNode := .elem "body" [] [c7_heading]

/-- The enclosing `html` of `c7_heading`. -/
def c7_html : HtmlNode := .elem "html" [] [c7_body]

/-- The document node above `c7_heading`: its ancestor chain
`[body, html, document]` has fewer than the six levels the upward walk
consumes. -/
def c7_doc : HtmlNode := .elem "[document]" [] [c7_html]

/-- A heading with no anchor inside, as in
`<h2>No Link Here</h2>`. -/
def c7_no_anchor_heading : HtmlNode := .elem "h2" [] [.text "No Link Here"]

/-- A one-post structured payload used to instantiate C2. -/
def c2_payload : Json :=
  .obj [("props", .obj [("pageProps", .obj
    [("posts", .arr [.obj [("title", .str "W"), ("permalink", .str "/w")]])])])]

/-- The Article the C2 payload parses to. -/
def c2_article : Article :=
  { title := "W", url := "https://www.jota.info/w", authors := [],
    category := "", image_url := none }

/-- The feed-entry description of main.py lines 271-276 (and, identically,
lines 315-320): the bracketed category and the `Por`-prefixed author list,
whichever are non-empty, joined by a dash separator, with the bare title as
the fallback. -/
def build_description (article : Article) : String :=
  let description_parts : List String :=
    (if article.category ≠ "" then ["[" ++ article.category ++ "]"] else []) ++
    (if article.authors ≠ [] then ["Por " ++ pyJoin ", " article.authors] else [])
  if description_parts ≠ [] then pyJoin " - " description_parts else article.title

/-- The observable fields of one syndication feed item (id and link both
carry the article url in main.py, so one field represents them). -/
structure FeedEntry where
  id : String
  title : String
  description : String
deriving DecidableEq

/-- One entry of a per-tag feed (main.py lines 265-276). -/
def feed_entry_for_tag (article : Article) : FeedEntry :=
  { id := article.url, title := article.title,
    description := build_description article }

/-- The entry list of `generate_feed_for_tag` (main.py lines 265-276), in
article order. -/
def generate_feed_entries_for_tag (articles : List Article) : List FeedEntry :=
  articles.map feed_entry_for_tag

/-- One entry of the combined feed (main.py lines 309-320): the title is
prefixed with the uppercased tag. -/
def combined_entry (p : String × Article) : FeedEntry :=
  { id := p.2.url, title := "[" ++ pyUpper p.1 ++ "] " ++ p.2.title,
    description := build_description p.2 }

/-- The flattening loop of `generate_combined_feed` (main.py lines
297-300): every (tag, article) pair, tags in mapping iteration order (a
Python dict iterates in insertion order, modelled by the association
list). -/
def all_tag_articles (tag_articles : List (String × List Article)) :
    List (String × Article) :=
  tag_articles.flatMap (fun p => p.2.map (fun article => (p.1, article)))

/-- The entry list of `generate_combined_feed` (main.py lines 297-320):
flatten, dedup by url with the same seen-set loop, then build entries. -/
def generate_combined_feed_entries (tag_articles : List (String × List Article)) :
    List FeedEntry :=
  (dedupByKey (fun p => p.2.url) [] (all_tag_articles tag_articles)).map combined_entry

/-- A shared article appearing under two different tags. -/
def c8_shared_article : Article :=
  { title := "Shared Article", url := "https://www.jota.info/shared",
    authors := ["Author"], category := "TRIBUTOS", image_url := none }

/-- The same url as served under the second tag. -/
def c8_shared_article_stf : Article :=
  { title := "Shared Article", url := "https://www.jota.info/shared",
    authors := ["Author"], category := "STF", image_url := none }

/-- The two-tag mapping of the C8 scenario: `itcmd` and `stf` share one
article url. -/
def c8_tag_articles : List (String × List Article) :=
  [("itcmd", [c8_shared_article]), ("stf", [c8_shared_article_stf])]

/-- An article with both a category and two authors. -/
def c9_article : Article :=
  { title := "T9", url := "https://www.jota.info/t9", authors := ["Ana", "Bia"],
    category := "TRIBUTOS", image_url := none }

/-- Models BeautifulSoup `tag.string`: the text when the element wraps a
single text child, `None` otherwise. -/
def script_string : HtmlNode → Option String
  | .elem _ _ [.text s] => some s
  | _ => none

/-- Embedding of `extract_next_data` (main.py lines 59-67): find the
script element with id `__NEXT_DATA__`, require a truthy `.string` body,
hand it to `json.loads`; the `JSONDecodeError` branch is the `none` of
`Env.jsonLoads`. -/
def extract_next_data (env : Env) (html : String) : Option Json :=
  let soup := env.parseHtml html
  match findElemInList
      (fun t a => t == "script" && (getAttr a "id" == some "__NEXT_DATA__"))
      soup.childNodes with
  | some script =>
    match script_string script with
    | some s => if s = "" then none else env.jsonLoads s
    | none => none
  | none => none

/-- The tag listing url `TAG_URL_TEMPLATE.format(tag=tag)` of main.py
line 19/193. -/
def tag_url (tag : String) : String := BASE_URL ++ "/tudo-sobre/" ++ tag

/-- The later-page url of main.py line 215. -/
def page_query_url (base_url : String) (p : Nat) : String :=
  base_url ++ "?page=" ++ toString p

/-- The structured-then-fallback strategy applied to a later page's body
(main.py lines 220-224). -/
def page_articles (env : Env) (html base_url : String) : List Article :=
  match extract_next_data env html with
  | some next_data => parse_articles_from_next_data BASE_URL next_data
  | none => parse_articles_from_html env html base_url

/-- What one later page adds to the running list (main.py lines 215-225):
a failed fetch and an empty body contribute nothing (`if html:`). -/
def page_contribution (env : Env) (base_url url : String) : List Article :=
  match env.fetch url with
  | some html => if html = "" then [] else page_articles env html base_url
  | none => []

/-- The page-1 extraction of main.py lines 201-208: articles and total
pages by the structured-then-fallback strategy. -/
def first_page_data (env : Env) (html base_url : String) : List Article × Int :=
  match extract_next_data env html with
  | some next_data =>
    (parse_articles_from_next_data BASE_URL next_data,
     get_total_pages_from_next_data next_data)
  | none =>
    (parse_articles_from_html env html base_url,
     (get_total_pages_from_html env html : Int))

/-- The urls of pages 2..pagesToFetch (main.py lines 210-215), where
`pages_to_fetch = min(total_pages, max_pages)` and `range(2,
pages_to_fetch + 1)` is empty unless `pages_to_fetch > 1`. -/
def later_page_urls (base_url : String) (total_pages max_pages : Int) : List String :=
  let pages_to_fetch := min total_pages max_pages
  if pages_to_fetch > 1 then
    (List.range' 2 (pages_to_fetch.toNat - 1)).map (page_query_url base_url)
  else []

/-- Embedding of `scrape_tag` (main.py lines 190-235), instrumented with
the list of urls handed to `fetch_page` (page 1 first, later pages in
ascending order).  `if not first_page_html` covers both a failed fetch
(`none`) and an empty body. -/
def scrape_tag_trace (env : Env) (tag : String) (max_pages : Int) :
    List Article × List String :=
  let base_url := tag_url tag
  match env.fetch base_url with
  | none => ([], [base_url])
  | some first_page_html =>
    if first_page_html = "" then ([], [base_url])
    else
      let fp := first_page_data env first_page_html base_url
      let urls := later_page_urls base_url fp.2 max_pages
      (dedupByKey (fun a => a.url) []
        (fp.1 ++ urls.flatMap (page_contribution env base_url)),
       base_url :: urls)

/-- The article list `scrape_tag` returns. -/
def scrape_tag (env : Env) (tag : String) (max_pages : Int) : List Article :=
  (scrape_tag_trace env tag max_pages).1

/-- The structured payload of the C6 witness: one post, two total pages. -/
def c6_payload : Json :=
  .obj [("props", .obj [("pageProps", .obj
    [("posts", .arr [.obj [("title", .str "A"), ("permalink", .str "/a")]]),
     ("totalPages", .num 2)])])]

/-- The parsed page-1 of the C6 witness, carrying the `__NEXT_DATA__`
script. -/
def c6_page1_tree : HtmlNode :=
  .elem "[document]" [] [.elem "html" [] [.elem "head" []
    [.elem "script" [("id", "__NEXT_DATA__")] [.text "J"]]]]

/-- Environment of the C6 witness: page 1 of tag `stf` succeeds and
announces two pages, every other fetch (page 2 included) fails. -/
def c6_env : Env :=
  { fetch := fun u => if u = tag_url "stf" then some "H" else none,
    parseHtml := fun h => if h = "H" then c6_page1_tree else .text "",
    jsonLoads := fun _ => some c6_payload,
    urljoin := fun b u => b ++ u }

/-- The article page 1 of the C6 witness carries. -/
def c6_article : Article :=
  { title := "A", url := "https://www.jota.info/a", authors := [],
    category := "", image_url := none }

/-- Environment of the C10 witness: every fetch succeeds with an empty
body. -/
def c10_env : Env :=
  { fetch := fun _ => some "", parseHtml := fun _ => .text "",
    jsonLoads := fun _ => none, urljoin := fun b u => b ++ u }

/-- The cons equation of `List.filter` with the Boolean test explicit. -/
theorem filter_cons_bool {α : Type} (p : α → Bool) (a : α) (l : List α) :
    List.filter p (a :: l) =
      if p a = true then a :: List.filter p l else List.filter p l := by
  simp [List.filter_cons]

/-- The dedup loop equals first-occurrence filtering, generalized over the
urls already seen. -/
theorem dedupByKey_eq_keepFirstByKey {α : Type} (key : α → String) (l : List α) :
    ∀ seen : List String,
      dedupByKey key seen l =
        keepFirstByKey key (l.filter (fun a => !seen.contains (key a))) := by
  induction l with
  | nil => intro seen; simp [dedupByKey, keepFirstByKey]
  | cons a rest ih =>
    intro seen
    cases h : seen.contains (key a) with
    | true =>
      rw [dedupByKey, if_pos h, filter_cons_bool, if_neg (by rw [h]; decide)]
      exact ih seen
    | false =>
      rw [dedupByKey, if_neg (by rw [h]; decide), filter_cons_bool,
        if_pos (by rw [h]; rfl), keepFirstByKey]
      congr 1
      rw [ih (key a :: seen), List.filter_filter]
      apply congrArg
      apply List.filter_congr
      intro b _
      rw [List.contains_cons, Bool.not_or]

/-- Members of the first-occurrence filtering come from the original
list. -/
theorem mem_of_mem_keepFirstByKey {α : Type} (key : α → String) :
    ∀ (l : List α) (x : α), x ∈ keepFirstByKey key l → x ∈ l
  | [], x, h => by simp [keepFirstByKey] at h
  | a :: rest, x, h => by
    rw [keepFirstByKey] at h
    rcases List.mem_cons.mp h with h | h
    · exact h ▸ List.mem_cons_self a rest
    · have hx := mem_of_mem_keepFirstByKey key _ x h
      exact List.mem_cons_of_mem a (List.mem_filter.mp hx).1
termination_by l => l.length
decreasing_by
  simp only [List.length_cons]
  exact Nat.lt_succ_of_le (List.length_filter_le _ _)

/-- Filtering commutes with `find?` when the kept predicate implies the
filter predicate. -/
theorem find?_filter_of_imp {α : Type} (p q : α → Bool)
    (hpq : ∀ x, p x = true → q x = true) :
    ∀ l : List α, (l.filter q).find? p = l.find? p
  | [] => rfl
  | b :: rest => by
    cases hq : q b with
    | true =>
      rw [filter_cons_bool, if_pos hq]
      cases hp : p b with
      | true => simp [List.find?, hp]
      | false => simp [List.find?, hp, find?_filter_of_imp p q hpq rest]
    | false =>
      have hp : p b = false := by
        cases hpb : p b with
        | false => rfl
        | true =>
          have hqb := hpq b hpb
          rw [hqb] at hq
          exact Bool.noConfusion hq
      rw [filter_cons_bool, if_neg (by rw [hq]; decide)]
      simp [List.find?, hp, find?_filter_of_imp p q hpq rest]

/-- In the first-occurrence filtering, the items with a given key reduce to
exactly the first original occurrence of that key. -/
theorem filter_keepFirstByKey_eq_of_find? {α : Type} (key : α → String) :
    ∀ (l : List α) (u : String) (p : α),
      l.find? (fun a => key a == u) = some p →
      (keepFirstByKey key l).filter (fun a => key a == u) = [p]
  | [], u, p, h => by simp [List.find?] at h
  | a :: rest, u, p, h => by
    rw [keepFirstByKey]
    cases ha : (key a == u) with
    | true =>
      have hp : a = p := by simpa [List.find?, ha] using h
      subst hp
      rw [filter_cons_bool, if_pos ha]
      have hnil : ∀ x ∈ keepFirstByKey key (rest.filter (fun b => !(key b == key a))),
          ¬((fun x => key x == u) x = true) := by
        intro x hx hxu
        have hmem := mem_of_mem_keepFirstByKey key _ x hx
        have hxne := (List.mem_filter.mp hmem).2
        have hau : key a = u := eq_of_beq ha
        have hxu' : key x = u := eq_of_beq hxu
        rw [hxu', ← hau] at hxne
        simp at hxne
      rw [List.filter_eq_nil_iff.mpr hnil]
    | false =>
      have hfind : rest.find? (fun a => key a == u) = some p := by
        simpa [List.find?, ha] using h
      rw [filter_cons_bool, if_neg (by rw [ha]; decide)]
      have hsub : (rest.filter (fun b => !(key b == key a))).find?
          (fun a => key a == u) = some p := by
        rw [find?_filter_of_imp]
        · exact hfind
        · intro x hx
          have hxu : key x = u := eq_of_beq hx
          have hne : ¬(key x = key a) := by
            intro hc
            rw [← hc, hxu] at ha
            simp at ha
          simp [hne]
      exact filter_keepFirstByKey_eq_of_find? key _ u p hsub
termination_by l => l.length
decreasing_by
  simp only [List.length_cons]
  exact Nat.lt_succ_of_le (List.length_filter_le _ _)

/-- On a list whose keys are pairwise distinct and disjoint from `seen`,
the dedup loop is the identity. -/
theorem dedupByKey_eq_self_of_pairwise {α : Type} (key : α → String) :
    ∀ (l : List α) (seen : List String),
      l.Pairwise (fun a b => key a ≠ key b) →
      (∀ a ∈ l, seen.contains (key a) = false) →
      dedupByKey key seen l = l
  | [], _, _, _ => rfl
  | a :: rest, seen, hpw, hseen => by
    have ha : seen.contains (key a) = false := hseen a (List.mem_cons_self _ _)
    rw [dedupByKey, if_neg (by rw [ha]; decide)]
    congr 1
    apply dedupByKey_eq_self_of_pairwise key rest (key a :: seen)
      (List.pairwise_cons.mp hpw).2
    intro b hb
    have hne := (List.pairwise_cons.mp hpw).1 b hb
    have hs := hseen b (List.mem_cons_of_mem _ hb)
    rw [List.contains_cons, hs, Bool.or_false]
    exact beq_eq_false_iff_ne.mpr (fun hh => hne hh.symm)

/-- C3: the Tag Scraper's deduplication by url (main.py lines 227-232,
applied to the page-1 articles followed by the later pages' articles in
ascending page order) keeps exactly the first occurrence of each url in
list order and drops all later occurrences; in particular, for any url
present in the combined list, the returned list contains exactly one
Article with that url, namely the first one in list order. -/
theorem c3_dedup_keeps_first_occurrence (l : List Article) :
    dedupByKey (fun a => a.url) [] l = keepFirstByKey (fun a => a.url) l ∧
    ∀ (u : String) (p : Article),
      l.find? (fun a => a.url == u) = some p →
      (dedupByKey (fun a => a.url) [] l).filter (fun a => a.url == u) = [p] := by
  have h1 : dedupByKey (fun a => a.url) [] l = keepFirstByKey (fun a => a.url) l := by
    rw [dedupByKey_eq_keepFirstByKey]
    apply congrArg
    exact List.filter_true l
  refine ⟨h1, fun u p hf => ?_⟩
  rw [h1]
  exact filter_keepFirstByKey_eq_of_find? _ l u p hf

/-- Witness for C3: on the combined listing of two pages sharing `/a`, the
dedup keeps exactly the page-1 Article for that url. -/
theorem c3_dedup_keeps_first_occurrence_witness :
    (dedupByKey (fun a => a.url) [] [article_p1a, article_p1b, article_p2a]).filter
      (fun a => a.url == "https://www.jota.info/a") = [article_p1a] :=
  (c3_dedup_keeps_first_occurrence [article_p1a, article_p1b, article_p2a]).2
    "https://www.jota.info/a" article_p1a (by rfl)

/-- C4: on a list whose urls are pairwise distinct the dedup is the
identity, hence running the dedup twice yields what running it once
yields. -/
theorem c4_dedup_idempotent (l : List Article)
    (h : l.Pairwise (fun a b => a.url ≠ b.url)) :
    dedupByKey (fun a => a.url) [] l = l ∧
    dedupByKey (fun a => a.url) [] (dedupByKey (fun a => a.url) [] l) =
      dedupByKey (fun a => a.url) [] l := by
  have h1 : dedupByKey (fun a => a.url) [] l = l :=
    dedupByKey_eq_self_of_pairwise _ l [] h (fun a _ => rfl)
  exact ⟨h1, by rw [h1]; exact h1⟩

/-- Witness for C4 at a concrete already-deduplicated list. -/
theorem c4_dedup_idempotent_witness :
    dedupByKey (fun a => a.url) [] [article_p1a, article_p1b] =
      [article_p1a, article_p1b] :=
  (c4_dedup_idempotent [article_p1a, article_p1b] (by decide)).1

/-- Counterexample to C5 as stated: on a page whose only digit-only text
node is `0`, the code returns 1 (the accumulator starts at 1 and `0` never
beats it) while the claimed maximum over numerals below 100 is 0. -/
theorem c5_counterexample :
    get_total_pages_from_soup c5_zero_page = 1 ∧
    total_pages_claimed c5_zero_page = 0 := ⟨rfl, rfl⟩

/-- The pagination fold, generalized over a start value below 100: it
computes the maximum of the start value and every numeral below 100, and
stays below 100. -/
theorem pagination_fold_eq_fold_max (nums : List Nat) :
    ∀ m : Nat, m < 100 →
      nums.foldl (fun max_page num =>
          if num > max_page ∧ num < 100 then num else max_page) m =
        (nums.filter (fun n => decide (n < 100))).foldl Nat.max m ∧
      nums.foldl (fun max_page num =>
          if num > max_page ∧ num < 100 then num else max_page) m < 100 := by
  induction nums with
  | nil => intro m hm; exact ⟨rfl, hm⟩
  | cons n rest ih =>
    intro m hm
    by_cases hn : n < 100
    · rw [List.foldl_cons, filter_cons_bool, if_pos (decide_eq_true hn), List.foldl_cons]
      have hstep : (if n > m ∧ n < 100 then n else m) = Nat.max m n := by
        by_cases hgt : n > m
        · rw [if_pos ⟨hgt, hn⟩]
          exact (Nat.max_eq_right (Nat.le_of_lt hgt)).symm
        · rw [if_neg (fun hc => hgt hc.1)]
          exact (Nat.max_eq_left (Nat.le_of_not_lt hgt)).symm
      rw [hstep]
      exact ih (Nat.max m n) (Nat.max_lt.mpr ⟨hm, hn⟩)
    · rw [List.foldl_cons]
      rw [if_neg (fun hc => hn hc.2)]
      rw [filter_cons_bool, if_neg (by simpa using hn)]
      exact ih m hm

/-- C5 amended: the fallback total-page count equals the maximum of 1 and
every digit-only text node parsing to an integer strictly below 100 (the
claim omitted the floor of 1, which shows on a page whose only numeral is
0), and the result is always strictly below 100. -/
theorem c5_total_pages_amended (soup : HtmlNode) :
    get_total_pages_from_soup soup =
      ((((textsInNode soup).filter matchesDigitsOnly).map pyInt).filter
        (fun n => decide (n < 100))).foldl Nat.max 1 ∧
    get_total_pages_from_soup soup < 100 := by
  have h := pagination_fold_eq_fold_max
    (((textsInNode soup).filter matchesDigitsOnly).map pyInt) 1 (by omega)
  rw [List.foldl_map] at h
  exact h

/-- Counterexample to C7 as stated: for this heading the bounded upward
walk finds no ancestor block, yet the extractor does not skip it — it
emits the Article, merely with empty metadata. -/
theorem c7_counterexample :
    ancestor_block [c7_body, c7_html, c7_doc] = none ∧
    parse_article_from_element demo_env c7_heading [c7_body, c7_html, c7_doc]
        "https://www.jota.info/tudo-sobre/stf" =
      some { title := "T", url := "https://www.jota.info/x", authors := [],
             category := "", image_url := none } :=
  ⟨rfl, rfl⟩

/-- C7 amended: a heading containing no anchor yields no Article; when the
heading has an anchor, the candidate is skipped exactly when its title or
its resolved URL is empty (either one suffices, so in particular both
empty is skipped); and when no ancestor block is found within the bounded
upward walk the candidate is not skipped but emitted with empty authors,
empty category and no image, provided title and URL are non-empty. -/
theorem c7_fallback_skip_semantics (env : Env) (heading : HtmlNode)
    (ancestors : List HtmlNode) (base_url : String) :
    (findElemInList (fun t _ => t == "a") heading.childNodes = none →
       parse_article_from_element env heading ancestors base_url = none) ∧
    (∀ link, findElemInList (fun t _ => t == "a") heading.childNodes = some link →
       ((parse_article_from_element env heading ancestors base_url = none) ↔
         (getTextStrip link = "" ∨ resolved_url env base_url link = "")) ∧
       (ancestor_block ancestors = none →
          ∀ a, parse_article_from_element env heading ancestors base_url = some a →
            a.authors = [] ∧ a.category = "" ∧ a.image_url = none)) := by
  constructor
  · intro hnone
    simp only [parse_article_from_element, hnone]
  · intro link hlink
    constructor
    · by_cases hcond : getTextStrip link = "" ∨ resolved_url env base_url link = ""
      · simp only [parse_article_from_element, hlink, if_pos hcond]
        simp [hcond]
      · simp only [parse_article_from_element, hlink, if_neg hcond]
        simp [hcond]
    · intro hanc a ha
      simp only [parse_article_from_element, hlink, hanc] at ha
      split at ha
      · exact Option.noConfusion ha
      · injection ha with h2
        subst h2
        exact ⟨rfl, rfl, rfl⟩

/-- Witness for the amended C7 at a concrete anchorless heading. -/
theorem c7_fallback_skip_semantics_witness :
    parse_article_from_element demo_env c7_no_anchor_heading [] "https://www.jota.info" =
      none :=
  (c7_fallback_skip_semantics demo_env c7_no_anchor_heading [] "https://www.jota.info").1 rfl

/-- Appending a non-empty string yields a non-empty string. -/
theorem string_append_ne_empty_right (s t : String) (ht : t ≠ "") : s ++ t ≠ "" := by
  intro hc
  apply ht
  have hlen : (s ++ t).length = 0 := by rw [hc]; rfl
  rw [String.length_append] at hlen
  have hzero : t.length = 0 := by omega
  cases t with
  | mk data =>
    cases data with
    | nil => rfl
    | cons c cs => simp [String.length] at hzero

/-- A post that survives `parse_post` has a non-empty title and a
non-empty url. -/
theorem parse_post_no_empty (base_url : String) (post : Json) (a : Article)
    (h : parse_post base_url post = some a) : a.title ≠ "" ∧ a.url ≠ "" := by
  simp only [parse_post] at h
  split at h
  · exact Option.noConfusion h
  · rename_i hcond
    push_neg at hcond
    injection h with h2
    subst h2
    refine ⟨hcond.1, ?_⟩
    by_cases hsw : pyStartsWith ((post.getD "permalink" (.str "")).getStr) "http" = true
    · simpa [hsw] using hcond.2
    · have hsw' : pyStartsWith ((post.getD "permalink" (.str "")).getStr) "http" = false := by
        rw [Bool.eq_false_iff]
        exact hsw
      simp only [hsw', Bool.false_eq_true, if_false]
      exact string_append_ne_empty_right _ _ hcond.2

/-- An element that survives `parse_article_from_element` has a non-empty
title and a non-empty url. -/
theorem parse_article_from_element_no_empty (env : Env) (heading : HtmlNode)
    (ancestors : List HtmlNode) (base_url : String) (a : Article)
    (h : parse_article_from_element env heading ancestors base_url = some a) :
    a.title ≠ "" ∧ a.url ≠ "" := by
  simp only [parse_article_from_element] at h
  split at h
  · exact Option.noConfusion h
  · split at h
    · exact Option.noConfusion h
    · rename_i hcond
      push_neg at hcond
      injection h with h2
      subst h2
      exact ⟨hcond.1, hcond.2⟩

/-- C2: neither extraction path ever returns an Article whose title or url
is the empty string — candidates with an empty title or url are rejected
before an Article is built, and a resolved non-empty permalink stays
non-empty after prefixing with the base origin. -/
theorem c2_no_empty_title_or_url :
    (∀ (base_url : String) (data : Json) (a : Article),
       a ∈ parse_articles_from_next_data base_url data →
       a.title ≠ "" ∧ a.url ≠ "") ∧
    (∀ (env : Env) (html base_url : String) (a : Article),
       a ∈ parse_articles_from_html env html base_url →
       a.title ≠ "" ∧ a.url ≠ "") := by
  constructor
  · intro base_url data a ha
    simp only [parse_articles_from_next_data] at ha
    obtain ⟨post, _, hf⟩ := List.mem_filterMap.mp ha
    exact parse_post_no_empty base_url post a hf
  · intro env html base_url a ha
    simp only [parse_articles_from_html, parse_articles_from_soup] at ha
    obtain ⟨hd, _, hf⟩ := List.mem_filterMap.mp ha
    exact parse_article_from_element_no_empty env hd.1 hd.2 base_url a hf

/-- Witness for C2 at a concrete payload and its parsed Article. -/
theorem c2_no_empty_title_or_url_witness :
    c2_article.title ≠ "" ∧ c2_article.url ≠ "" :=
  c2_no_empty_title_or_url.1 BASE_URL c2_payload c2_article (by decide)

/-- Dedup from an empty seen set is exactly first-occurrence filtering. -/
theorem dedupByKey_nil_eq_keepFirstByKey {α : Type} (key : α → String) (l : List α) :
    dedupByKey key [] l = keepFirstByKey key l := by
  rw [dedupByKey_eq_keepFirstByKey]
  apply congrArg
  exact List.filter_true l

/-- C8: the combined feed contains exactly one item per url appearing in
the flattened tag mapping, built from the first (tag, article) pair in
tag-mapping iteration order carrying that url; in particular two tags
sharing one article url produce a single feed item for it. -/
theorem c8_combined_feed_dedup (tag_articles : List (String × List Article))
    (u : String) (p : String × Article)
    (h : (all_tag_articles tag_articles).find? (fun q => q.2.url == u) = some p) :
    (generate_combined_feed_entries tag_articles).filter (fun e => e.id == u) =
      [combined_entry p] := by
  have hk := filter_keepFirstByKey_eq_of_find? (fun q : String × Article => q.2.url)
    (all_tag_articles tag_articles) u p h
  rw [generate_combined_feed_entries, dedupByKey_nil_eq_keepFirstByKey, List.filter_map]
  have hcongr :
      List.filter ((fun e => e.id == u) ∘ combined_entry)
        (keepFirstByKey (fun q : String × Article => q.2.url)
          (all_tag_articles tag_articles)) =
      List.filter (fun q : String × Article => q.2.url == u)
        (keepFirstByKey (fun q : String × Article => q.2.url)
          (all_tag_articles tag_articles)) :=
    List.filter_congr (fun q _ => rfl)
  rw [hcongr, hk]
  rfl

/-- Witness for C8: the combined feed built from two tags sharing one url
carries exactly one item for it, the one from the first tag. -/
theorem c8_combined_feed_dedup_witness :
    (generate_combined_feed_entries c8_tag_articles).filter
      (fun e => e.id == "https://www.jota.info/shared") =
      [combined_entry ("itcmd", c8_shared_article)] :=
  c8_combined_feed_dedup c8_tag_articles "https://www.jota.info/shared"
    ("itcmd", c8_shared_article) (by rfl)

/-- C9: the description is assembled from whichever of category and
authors are non-empty, the bracketed category first, the author list
prefixed with `Por` and comma-joined, the two parts joined with a dash,
and the bare title is the fallback when both are empty. -/
theorem c9_description_parts (a : Article) :
    (a.category = "" → a.authors = [] → build_description a = a.title) ∧
    (a.category ≠ "" → a.authors = [] →
      build_description a = "[" ++ a.category ++ "]") ∧
    (a.category = "" → a.authors ≠ [] →
      build_description a = "Por " ++ pyJoin ", " a.authors) ∧
    (a.category ≠ "" → a.authors ≠ [] →
      build_description a =
        ("[" ++ a.category ++ "]") ++ " - " ++ ("Por " ++ pyJoin ", " a.authors)) := by
  refine ⟨?_, ?_, ?_, ?_⟩
  · intro h1 h2
    simp [build_description, h1, h2]
  · intro h1 h2
    simp [build_description, h1, h2, pyJoin]
  · intro h1 h2
    simp [build_description, h1, h2, pyJoin]
  · intro h1 h2
    simp [build_description, h1, h2, pyJoin]

/-- Witness for C9 at an article with both parts present. -/
theorem c9_description_parts_witness :
    build_description c9_article =
      ("[" ++ c9_article.category ++ "]") ++ " - " ++
        ("Por " ++ pyJoin ", " c9_article.authors) :=
  (c9_description_parts c9_article).2.2.2 (by decide) (by decide)

/-- C6: a failed page-1 fetch is terminal — the scraper returns the empty
list having fetched only the page-1 url; when page 1 succeeds with a
non-empty body, the scraper fetches every later page url and returns the
dedup of the page-1 articles followed by each later page's contribution,
where a failed later-page fetch contributes the empty list (and, being a
total function, the scraper raises nothing to the caller). -/
theorem c6_scrape_tag_failure_semantics (env : Env) (tag : String) (max_pages : Int) :
    (env.fetch (tag_url tag) = none →
       scrape_tag_trace env tag max_pages = ([], [tag_url tag])) ∧
    (∀ html, env.fetch (tag_url tag) = some html → html ≠ "" →
       scrape_tag_trace env tag max_pages =
         (dedupByKey (fun a => a.url) []
            ((first_page_data env html (tag_url tag)).1 ++
              (later_page_urls (tag_url tag)
                  (first_page_data env html (tag_url tag)).2 max_pages).flatMap
                (page_contribution env (tag_url tag))),
          tag_url tag ::
            later_page_urls (tag_url tag)
              (first_page_data env html (tag_url tag)).2 max_pages)) ∧
    (∀ base_url url, env.fetch url = none →
       page_contribution env base_url url = []) := by
  refine ⟨?_, ?_, ?_⟩
  · intro h
    simp only [scrape_tag_trace, h]
  · intro html hfetch hne
    simp only [scrape_tag_trace, hfetch]
    rw [if_neg hne]
  · intro base_url url h
    simp only [page_contribution, h]

/-- Witness for C6: a failing environment returns empty after one fetch;
the partially failing environment still fetches page 2, whose failure
contributes nothing, and the page-1 article survives. -/
theorem c6_scrape_tag_failure_semantics_witness :
    scrape_tag_trace demo_env "itcmd" 3 = ([], [tag_url "itcmd"]) ∧
    scrape_tag_trace c6_env "stf" 3 =
      ([c6_article], [tag_url "stf", page_query_url (tag_url "stf") 2]) ∧
    page_contribution c6_env (tag_url "stf") (page_query_url (tag_url "stf") 2) = [] :=
  ⟨(c6_scrape_tag_failure_semantics demo_env "itcmd" 3).1 rfl,
   ((c6_scrape_tag_failure_semantics c6_env "stf" 3).2.1 "H"
       (by decide) (by decide)).trans (by rfl),
   (c6_scrape_tag_failure_semantics c6_env "stf" 3).2.2 (tag_url "stf")
     (page_query_url (tag_url "stf") 2) (by decide)⟩

/-- C10: a page-1 fetch that succeeds with an empty-string body is treated
exactly like a failed fetch by `if not first_page_html` — empty result,
no further page fetched. -/
theorem c10_empty_body_first_page (env : Env) (tag : String) (max_pages : Int)
    (h : env.fetch (tag_url tag) = some "") :
    scrape_tag_trace env tag max_pages = ([], [tag_url tag]) := by
  simp [scrape_tag_trace, h]

/-- Witness for C10 at the empty-body environment. -/
theorem c10_empty_body_first_page_witness :
    scrape_tag_trace c10_env "itcmd" 3 = ([], [tag_url "itcmd"]) :=
  c10_empty_body_first_page c10_env "itcmd" 3 rfl

/-- C1: for the structured payload
`props.pageProps = posts [title T, permalink /p], totalPages 1` extracted on
base `https://example.org`, the structured extraction returns exactly one
Article whose url is `https://example.org/p` (the permalink prefixed with
the base origin since it is not already absolute), with empty authors,
empty category and no image. -/
theorem c1_structured_payload_scenario :
    parse_articles_from_next_data "https://example.org" c1_payload =
      [{ title := "T", url := "https://example.org/p", authors := [],
         category := "", image_url := none }] := by
  rfl

